import Mathlib

/-!
# Verification of the safe expression evaluator (`app.py`)

This file shallowly embeds the evaluator core of the Streamlit calculator:
the Python AST fragment that `ast.parse(expr, mode="eval")` can produce for
the inputs considered here, the recursive evaluator `_eval_node`, the
whitelist tables `_allowed_binops`, `_allowed_unaryops`, `_math_funcs`,
`_constants`, and the entry point `safe_eval`.

Modelling conventions:
* Python `int` is `ℤ` (arbitrary precision, as in the host).
* Python `float` is modelled by `ℚ`, the exact value of the host double in
  every case exercised by the theorems below (all concrete float values in
  play, such as `0.5`, are dyadic rationals the host represents exactly);
  claims that hinge on double *rounding* are treated separately.
* A host computation whose double result is a transcendental number that no
  exact type can carry (for example `math.log(8)`) is recorded symbolically
  as `Value.vTrans name args`, remembering which whitelisted host function
  was invoked on which (exactly represented) arguments.  A separate,
  noncomputable denotation `Value.denote` reads such a record as the exact
  real number the host double approximates.
* A complex result of the host `**` operator is recorded as
  `Value.vComplex` (its components are irrational in the exercised cases;
  the theorems below only need the fact that a complex value, rather than
  an error, was produced).
* Host exceptions inside a whitelisted operation are modelled as `Option`
  and `Except HostExc` results; `_eval_node` catches them exactly where the
  source has `try`/`except` and converts them to `EvalError` values.
-/

/-- A value produced by `_eval_node`: a Python `int`, `bool` (which the
source accepts because `bool` is a subtype of `int`), `float`, a complex
number (produced by `**` on a negative base with fractional exponent), or
the symbolically recorded double result of a whitelisted transcendental
host function. -/
inductive Value where
  | vInt (n : ℤ)
  | vBool (b : Bool)
  | vFloat (q : ℚ)
  | vComplex
  | vTrans (fn : String) (args : List ℚ)
  deriving DecidableEq

/-- The distinct `raise EvalError(...)` sites of `app.py`, one constructor
per site, carrying the name the message interpolates where the claims need
it.  (The source has a single exception class with message strings; the
constructors below are in bijection with its raise sites.) -/
inductive EvalError where
  /-- `safe_eval`: `ast.parse` raised `SyntaxError`. -/
  | syntaxError
  /-- `safe_eval`: the `ast.walk` pass found a disallowed node class. -/
  | disallowedConstruct
  /-- `_eval_node`: `Constant` whose value is not an `int`/`float`. -/
  | onlyNumericConst
  /-- `_eval_node`: a whitelisted binary operator raised (`Error in operation`). -/
  | opError
  /-- `_eval_node`: binary operator class not in `_allowed_binops`. -/
  | unsupportedOp
  /-- `_eval_node`: unary operator class not in `_allowed_unaryops`. -/
  | unsupportedUnary
  /-- `_eval_node`: `TypeError` from a whitelisted call (`Bad arguments for f`). -/
  | badArgs (fn : String)
  /-- `_eval_node`: other exception from a whitelisted call (`Error calling f`). -/
  | callError (fn : String)
  /-- `_eval_node`: called function name not in `_math_funcs`. -/
  | functionNotAllowed (fn : String)
  /-- `_eval_node`: call whose `func` is not a bare `ast.Name`. -/
  | onlyDirectFunc
  /-- `_eval_node`: `ast.Name` not in `_constants`. -/
  | unknownIdentifier (nm : String)
  /-- `_eval_node`: the final catch-all (`Unsupported expression`). -/
  | unsupportedExpr
  deriving DecidableEq

/-- The error taxonomy of the specification (section 7). -/
inductive ErrKind where
  | syntaxKind
  | disallowedKind
  | unknownIdentifierKind
  | unknownFunctionKind
  | badArgumentsKind
  | operationErrorKind
  | tooComplexKind
  deriving DecidableEq

/-- Modelled from the spec: the map from each error site of the source to
the specification error taxonomy (`SyntaxError`, `DisallowedConstruct`,
`UnknownIdentifier`, `UnknownFunction`, `BadArguments`, `OperationError`).
Sites that reject a node shape outside the whitelisted grammar are
`DisallowedConstruct`; exceptions escaping a whitelisted operator or call
are `OperationError`; a `TypeError` from a call is `BadArguments`. -/
def kindOf : EvalError → ErrKind
  | EvalError.syntaxError => ErrKind.syntaxKind
  | EvalError.disallowedConstruct => ErrKind.disallowedKind
  | EvalError.onlyNumericConst => ErrKind.disallowedKind
  | EvalError.opError => ErrKind.operationErrorKind
  | EvalError.unsupportedOp => ErrKind.disallowedKind
  | EvalError.unsupportedUnary => ErrKind.disallowedKind
  | EvalError.badArgs _ => ErrKind.badArgumentsKind
  | EvalError.callError _ => ErrKind.operationErrorKind
  | EvalError.functionNotAllowed _ => ErrKind.unknownFunctionKind
  | EvalError.onlyDirectFunc => ErrKind.disallowedKind
  | EvalError.unknownIdentifier _ => ErrKind.unknownIdentifierKind
  | EvalError.unsupportedExpr => ErrKind.disallowedKind

/-- A host exception escaping a whitelisted math function: the source
distinguishes `TypeError` (wrong arity or argument type) from every other
exception (domain errors such as `ValueError`, `ZeroDivisionError`). -/
inductive HostExc where
  | typeErr
  | otherErr
  deriving DecidableEq

/-- The symbolic record for a host double that arose from composing values
the model does not track exactly. -/
def opaqueV : Value := Value.vTrans ("opaque") []

/-- View a value as a Python `int`-like operand (`int` or `bool`, since
`bool` is a numeric subtype whose arithmetic uses its `0`/`1` value). -/
def Value.toIntLike : Value → Option ℤ
  | Value.vInt n => some n
  | Value.vBool b => some (if b then 1 else 0)
  | _ => none

/-- View a value as an exactly known real operand. -/
def Value.toQ : Value → Option ℚ
  | Value.vInt n => some (n : ℚ)
  | Value.vBool b => some (if b then 1 else 0)
  | Value.vFloat q => some q
  | _ => none

/-- Is this value the number zero?  (Dividing by it raises
`ZeroDivisionError` in the host, for `int`, `bool` and `float` operands.) -/
def Value.isZero : Value → Bool
  | Value.vInt n => n = 0
  | Value.vBool b => b = false
  | Value.vFloat q => q = 0
  | _ => false

/-- Host `operator.add` on evaluator values: exact `int` addition when both
operands are `int`-like, exact real addition when both are exactly known,
complex propagation otherwise. -/
def pyAdd (a b : Value) : Option Value :=
  match a.toIntLike, b.toIntLike with
  | some x, some y => some (Value.vInt (x + y))
  | _, _ =>
    match a.toQ, b.toQ with
    | some x, some y => some (Value.vFloat (x + y))
    | _, _ =>
      match a, b with
      | Value.vComplex, _ => some Value.vComplex
      | _, Value.vComplex => some Value.vComplex
      | _, _ => some opaqueV

/-- Host `operator.sub`. -/
def pySub (a b : Value) : Option Value :=
  match a.toIntLike, b.toIntLike with
  | some x, some y => some (Value.vInt (x - y))
  | _, _ =>
    match a.toQ, b.toQ with
    | some x, some y => some (Value.vFloat (x - y))
    | _, _ =>
      match a, b with
      | Value.vComplex, _ => some Value.vComplex
      | _, Value.vComplex => some Value.vComplex
      | _, _ => some opaqueV

/-- Host `operator.mul`. -/
def pyMul (a b : Value) : Option Value :=
  match a.toIntLike, b.toIntLike with
  | some x, some y => some (Value.vInt (x * y))
  | _, _ =>
    match a.toQ, b.toQ with
    | some x, some y => some (Value.vFloat (x * y))
    | _, _ =>
      match a, b with
      | Value.vComplex, _ => some Value.vComplex
      | _, Value.vComplex => some Value.vComplex
      | _, _ => some opaqueV

/-- Host `operator.truediv`: `x / 0` raises `ZeroDivisionError` (modelled
as `none`); otherwise `/` always produces a `float` (here its exact value). -/
def pyDiv (a b : Value) : Option Value :=
  if b.isZero then none
  else
    match a.toQ, b.toQ with
    | some x, some y => some (Value.vFloat (x / y))
    | _, _ =>
      match a, b with
      | Value.vComplex, _ => some Value.vComplex
      | _, Value.vComplex => some Value.vComplex
      | _, _ => some opaqueV

/-- Host `operator.floordiv`: raises on a zero divisor, truncates toward
negative infinity (`Int.fdiv`), raises `TypeError` on complex operands. -/
def pyFloorDiv (a b : Value) : Option Value :=
  if b.isZero then none
  else
    match a.toIntLike, b.toIntLike with
    | some x, some y => some (Value.vInt (Int.fdiv x y))
    | _, _ =>
      match a.toQ, b.toQ with
      | some x, some y => some (Value.vFloat ((Rat.floor (x / y) : ℤ) : ℚ))
      | _, _ =>
        match a, b with
        | Value.vComplex, _ => none
        | _, Value.vComplex => none
        | _, _ => some opaqueV

/-- Host `operator.mod`: raises on a zero divisor, result has the sign of
the divisor (`Int.fmod`, and `x - y * floor (x / y)` for floats), raises
`TypeError` on complex operands. -/
def pyMod (a b : Value) : Option Value :=
  if b.isZero then none
  else
    match a.toIntLike, b.toIntLike with
    | some x, some y => some (Value.vInt (Int.fmod x y))
    | _, _ =>
      match a.toQ, b.toQ with
      | some x, some y => some (Value.vFloat (x - y * ((Rat.floor (x / y) : ℤ) : ℚ)))
      | _, _ =>
        match a, b with
        | Value.vComplex, _ => none
        | _, Value.vComplex => none
        | _, _ => some opaqueV

/-- Host `operator.pow` (the `**` operator).  `int ** nonnegative int` is
exact integer power; `int ** negative int` is a float (`0` raises); with a
float operand, an integral exponent gives the exact real power (`0` to a
negative power raises), a fractional exponent on a negative base yields a
*complex* value (Python 3 semantics of `**`, unlike `math.pow`), on zero
either `0.0` or a raise, and on a positive base an irrational power that is
recorded symbolically. -/
def pyPow (a b : Value) : Option Value :=
  match a.toIntLike, b.toIntLike with
  | some x, some y =>
    if 0 ≤ y then some (Value.vInt (x ^ y.toNat))
    else if x = 0 then none
    else some (Value.vFloat ((x : ℚ) ^ y))
  | _, _ =>
    match a.toQ, b.toQ with
    | some x, some y =>
      if y.den = 1 then
        if x = 0 ∧ y.num < 0 then none else some (Value.vFloat (x ^ y.num))
      else if x < 0 then some Value.vComplex
      else if x = 0 then (if y < 0 then none else some (Value.vFloat 0))
      else some (Value.vTrans ("fpow") [x, y])
    | _, _ =>
      match a, b with
      | Value.vComplex, _ => some Value.vComplex
      | _, Value.vComplex => some Value.vComplex
      | _, _ => some opaqueV

/-- The binary-operator node classes that can appear in a parsed
expression; the first seven are the keys of `_allowed_binops`, the
remaining ones (bitwise and shift operators) exist in the host grammar but
are not whitelisted. -/
inductive BOp where
  | add | sub | mult | div | floorDiv | mod | pow
  | bitAnd | bitOr | bitXor | lshift | rshift
  deriving DecidableEq

/-- `_allowed_binops`: operator class to host implementation; `none` for a
class that is not a key of the dictionary. -/
def binFunc : BOp → Option (Value → Value → Option Value)
  | BOp.add => some pyAdd
  | BOp.sub => some pySub
  | BOp.mult => some pyMul
  | BOp.div => some pyDiv
  | BOp.floorDiv => some pyFloorDiv
  | BOp.mod => some pyMod
  | BOp.pow => some pyPow
  | _ => none

/-- The unary-operator node classes; `uAdd` and `uSub` are the keys of
`_allowed_unaryops`, `uNot` and `uInvert` exist in the host grammar but are
not whitelisted. -/
inductive UOp where
  | uAdd | uSub | uNot | uInvert
  deriving DecidableEq

/-- Host negation (`lambda x: -x`). -/
def pyNeg : Value → Value
  | Value.vInt n => Value.vInt (-n)
  | Value.vBool b => Value.vInt (-(if b then 1 else 0))
  | Value.vFloat q => Value.vFloat (-q)
  | Value.vComplex => Value.vComplex
  | Value.vTrans _ _ => opaqueV

/-- `_allowed_unaryops`: `UAdd` is the identity, `USub` negation. -/
def unaryFunc : UOp → Option (Value → Value)
  | UOp.uAdd => some (fun v => v)
  | UOp.uSub => some pyNeg
  | _ => none

/-- The `BinOp` arm of `_eval_node` after both operands are evaluated:
look the operator class up in `_allowed_binops`; a hit is applied under
`try`/`except` (any exception becomes `Error in operation`), a miss is
`Operator not supported`. -/
def applyBin (o : BOp) (l r : Value) : Except EvalError Value :=
  match binFunc o with
  | some f =>
    match f l r with
    | some v => Except.ok v
    | none => Except.error EvalError.opError
  | none => Except.error EvalError.unsupportedOp

/-- The `UnaryOp` arm of `_eval_node` after the operand is evaluated. -/
def applyUnary (o : UOp) (v : Value) : Except EvalError Value :=
  match unaryFunc o with
  | some f => Except.ok (f v)
  | none => Except.error EvalError.unsupportedUnary

/-- Generic one-argument entry of `_math_funcs`: the host raises
`TypeError` for a wrong argument count or a complex argument, `ValueError`
(modelled as `HostExc.otherErr`) outside the domain predicate, and
otherwise computes a double recorded symbolically. -/
def func1 (nm : String) (dom : ℚ → Bool) : List Value → Except HostExc Value
  | [a] =>
    match a.toQ with
    | some q => if dom q then Except.ok (Value.vTrans nm [q]) else Except.error HostExc.otherErr
    | none =>
      match a with
      | Value.vTrans _ _ => Except.ok (Value.vTrans nm [])
      | _ => Except.error HostExc.typeErr
  | _ => Except.error HostExc.typeErr

/-- `math.log`: one argument (natural log, positive domain) or two
arguments (`log(x, base)`, computed by the host as `log x / log base`, so
`base = 1` raises `ZeroDivisionError` and nonpositive arguments raise
`ValueError`); any other arity is a `TypeError`. -/
def logFunc : List Value → Except HostExc Value
  | [a] =>
    match a.toQ with
    | some x =>
      if 0 < x then Except.ok (Value.vTrans ("log") [x]) else Except.error HostExc.otherErr
    | none =>
      match a with
      | Value.vTrans _ _ => Except.ok (Value.vTrans ("log") [])
      | _ => Except.error HostExc.typeErr
  | [a, b] =>
    match a.toQ, b.toQ with
    | some x, some y =>
      if 0 < x ∧ 0 < y then
        if y = 1 then Except.error HostExc.otherErr
        else Except.ok (Value.vTrans ("log") [x, y])
      else Except.error HostExc.otherErr
    | _, _ =>
      match a, b with
      | Value.vComplex, _ => Except.error HostExc.typeErr
      | _, Value.vComplex => Except.error HostExc.typeErr
      | _, _ => Except.ok (Value.vTrans ("log") [])
  | _ => Except.error HostExc.typeErr

/-- `math.pow`: exactly two arguments; raises `ValueError` for a negative
base with fractional exponent (unlike the `**` operator, which goes
complex) and for `0` to a negative power; otherwise a double, recorded
symbolically. -/
def powFunc : List Value → Except HostExc Value
  | [a, b] =>
    match a.toQ, b.toQ with
    | some x, some y =>
      if x < 0 ∧ y.den ≠ 1 then Except.error HostExc.otherErr
      else if x = 0 ∧ y < 0 then Except.error HostExc.otherErr
      else Except.ok (Value.vTrans ("pow") [x, y])
    | _, _ =>
      match a, b with
      | Value.vComplex, _ => Except.error HostExc.typeErr
      | _, Value.vComplex => Except.error HostExc.typeErr
      | _, _ => Except.ok (Value.vTrans ("pow") [])
  | _ => Except.error HostExc.typeErr

/-- Builtin `abs`: exact on `int`, `bool` and `float`; on other numeric
values the host still produces a result, recorded symbolically. -/
def absFunc : List Value → Except HostExc Value
  | [a] =>
    match a with
    | Value.vInt n => Except.ok (Value.vInt |n|)
    | Value.vBool b => Except.ok (Value.vInt (if b then 1 else 0))
    | Value.vFloat q => Except.ok (Value.vFloat |q|)
    | Value.vComplex => Except.ok (Value.vTrans ("abs") [])
    | Value.vTrans _ _ => Except.ok (Value.vTrans ("abs") [])
  | _ => Except.error HostExc.typeErr

/-- `math.floor`: exact; complex arguments raise `TypeError`. -/
def floorFunc : List Value → Except HostExc Value
  | [a] =>
    match a with
    | Value.vInt n => Except.ok (Value.vInt n)
    | Value.vBool b => Except.ok (Value.vInt (if b then 1 else 0))
    | Value.vFloat q => Except.ok (Value.vInt (Rat.floor q))
    | Value.vComplex => Except.error HostExc.typeErr
    | Value.vTrans _ _ => Except.ok (Value.vTrans ("floor") [])
  | _ => Except.error HostExc.typeErr

/-- `math.ceil`: exact; complex arguments raise `TypeError`. -/
def ceilFunc : List Value → Except HostExc Value
  | [a] =>
    match a with
    | Value.vInt n => Except.ok (Value.vInt n)
    | Value.vBool b => Except.ok (Value.vInt (if b then 1 else 0))
    | Value.vFloat q => Except.ok (Value.vInt (Rat.ceil q))
    | Value.vComplex => Except.error HostExc.typeErr
    | Value.vTrans _ _ => Except.ok (Value.vTrans ("ceil") [])
  | _ => Except.error HostExc.typeErr

/-- `math.factorial`: accepts a nonnegative integer (or `bool`) and is
exact; a negative integer raises `ValueError`, a non-integral argument
raises, and a complex argument raises `TypeError`. -/
def factFunc : List Value → Except HostExc Value
  | [a] =>
    match a with
    | Value.vInt n =>
      if 0 ≤ n then Except.ok (Value.vInt (Nat.factorial n.toNat)) else Except.error HostExc.otherErr
    | Value.vBool _ => Except.ok (Value.vInt 1)
    | Value.vFloat _ => Except.error HostExc.otherErr
    | Value.vComplex => Except.error HostExc.typeErr
    | Value.vTrans _ _ => Except.error HostExc.otherErr
  | _ => Except.error HostExc.typeErr

/-- `_math_funcs`: the 17-entry function whitelist, name to host
implementation; `none` for any name that is not a key. -/
def mathFuncs (s : String) : Option (List Value → Except HostExc Value) :=
  if s = "sin" then some (func1 ("sin") (fun _ => true))
  else if s = "cos" then some (func1 ("cos") (fun _ => true))
  else if s = "tan" then some (func1 ("tan") (fun _ => true))
  else if s = "asin" then some (func1 ("asin") (fun q => decide ((-1 : ℚ) ≤ q ∧ q ≤ 1)))
  else if s = "acos" then some (func1 ("acos") (fun q => decide ((-1 : ℚ) ≤ q ∧ q ≤ 1)))
  else if s = "atan" then some (func1 ("atan") (fun _ => true))
  else if s = "sqrt" then some (func1 ("sqrt") (fun q => decide ((0 : ℚ) ≤ q)))
  else if s = "log" then some logFunc
  else if s = "log10" then some (func1 ("log10") (fun q => decide ((0 : ℚ) < q)))
  else if s = "exp" then some (func1 ("exp") (fun _ => true))
  else if s = "pow" then some powFunc
  else if s = "abs" then some absFunc
  else if s = "floor" then some floorFunc
  else if s = "ceil" then some ceilFunc
  else if s = "factorial" then some factFunc
  else if s = "radians" then some (func1 ("radians") (fun _ => true))
  else if s = "degrees" then some (func1 ("degrees") (fun _ => true))
  else none

/-- The exact value of the host double `math.pi`. -/
def piDouble : ℚ := 884279719003555 / 281474976710656

/-- The exact value of the host double `math.e`. -/
def eDouble : ℚ := 6121026514868073 / 2251799813685248

/-- `_constants`: the two-entry constant table. -/
def constantsTable (s : String) : Option ℚ :=
  if s = "pi" then some piDouble
  else if s = "e" then some eDouble
  else none

mutual
/-- The expression-tree fragment `ast.parse(mode="eval")` produces for the
inputs considered here: numeric, boolean, string and `None` constants,
names, the unary and binary operator nodes, calls (with positional and
keyword arguments), attribute access, subscripting and lambdas.  Argument
lists are their own inductive so that the evaluator is structurally
recursive. -/
inductive Expr where
  | constInt (n : ℤ)
  | constFloat (q : ℚ)
  | constBool (b : Bool)
  | constStr (s : String)
  | constNone
  | name (nm : String)
  | binOp (o : BOp) (l r : Expr)
  | unaryOp (o : UOp) (e : Expr)
  | call (fn : Expr) (args : ExprList) (kws : KwList)
  | attr (obj : Expr) (field : String)
  | subscript (obj : Expr) (idx : Expr)
  | lambdaE (body : Expr)

/-- A list of positional argument expressions. -/
inductive ExprList where
  | nil
  | cons (e : Expr) (es : ExprList)

/-- A list of keyword arguments (`name=expr`). -/
inductive KwList where
  | nil
  | cons (k : String) (e : Expr) (ks : KwList)
end

mutual
/-- `_eval_node`: recursive evaluation of an AST node.  Constants must be
`int`/`float` (which includes `bool`); binary and unary operators are
looked up in the whitelist tables; calls require a bare function name that
is a key of `_math_funcs`, evaluate the *positional* arguments only (the
source reads `node.args` and never touches `node.keywords`), and convert a
`TypeError` of the call into `Bad arguments` and any other exception into
`Error calling`; names are looked up in `_constants`; every other node
shape falls into the `Unsupported expression` catch-all. -/
def evalNode : Expr → Except EvalError Value
  | Expr.constInt n => Except.ok (Value.vInt n)
  | Expr.constFloat q => Except.ok (Value.vFloat q)
  | Expr.constBool b => Except.ok (Value.vBool b)
  | Expr.constStr _ => Except.error EvalError.onlyNumericConst
  | Expr.constNone => Except.error EvalError.onlyNumericConst
  | Expr.binOp o l r =>
    match evalNode l with
    | Except.error e => Except.error e
    | Except.ok lv =>
      match evalNode r with
      | Except.error e => Except.error e
      | Except.ok rv => applyBin o lv rv
  | Expr.unaryOp o e =>
    match evalNode e with
    | Except.error er => Except.error er
    | Except.ok v => applyUnary o v
  | Expr.call fn args _ =>
    match fn with
    | Expr.name f =>
      match mathFuncs f with
      | some impl =>
        match evalArgs args with
        | Except.error e => Except.error e
        | Except.ok vs =>
          match impl vs with
          | Except.ok v => Except.ok v
          | Except.error HostExc.typeErr => Except.error (EvalError.badArgs f)
          | Except.error HostExc.otherErr => Except.error (EvalError.callError f)
      | none => Except.error (EvalError.functionNotAllowed f)
    | _ => Except.error EvalError.onlyDirectFunc
  | Expr.name nm =>
    match constantsTable nm with
    | some q => Except.ok (Value.vFloat q)
    | none => Except.error (EvalError.unknownIdentifier nm)
  | Expr.attr _ _ => Except.error EvalError.unsupportedExpr
  | Expr.subscript _ _ => Except.error EvalError.unsupportedExpr
  | Expr.lambdaE _ => Except.error EvalError.unsupportedExpr

/-- Left-to-right evaluation of the positional arguments of a call
(`[_eval_node(arg) for arg in node.args]`); the first error propagates. -/
def evalArgs : ExprList → Except EvalError (List Value)
  | ExprList.nil => Except.ok []
  | ExprList.cons e es =>
    match evalNode e with
    | Except.error er => Except.error er
    | Except.ok v =>
      match evalArgs es with
      | Except.error er => Except.error er
      | Except.ok vs => Except.ok (v :: vs)
end

mutual
/-- The `ast.walk` rejection pass of `safe_eval`: of the node classes it
rejects (`Import`, `ImportFrom`, `Lambda`, `Global`, `Nonlocal`,
`ClassDef`, `FunctionDef`), only `Lambda` can occur inside an
expression parsed in `eval` mode, so the pass amounts to scanning the whole
tree, keyword arguments included, for a lambda. -/
def exprHasLambda : Expr → Bool
  | Expr.lambdaE _ => true
  | Expr.binOp _ l r => exprHasLambda l || exprHasLambda r
  | Expr.unaryOp _ e => exprHasLambda e
  | Expr.call fn args kws => exprHasLambda fn || argsHaveLambda args || kwsHaveLambda kws
  | Expr.attr obj _ => exprHasLambda obj
  | Expr.subscript obj idx => exprHasLambda obj || exprHasLambda idx
  | _ => false

/-- `exprHasLambda` over positional arguments. -/
def argsHaveLambda : ExprList → Bool
  | ExprList.nil => false
  | ExprList.cons e es => exprHasLambda e || argsHaveLambda es

/-- `exprHasLambda` over keyword arguments. -/
def kwsHaveLambda : KwList → Bool
  | KwList.nil => false
  | KwList.cons _ e ks => exprHasLambda e || kwsHaveLambda ks
end

mutual
/-- Modelled from the spec: does the tree contain, anywhere (keyword
arguments included), one of the disallowed constructs the claims name that
is representable inside an `eval`-mode expression — attribute access,
subscripting, or a lambda?  (Assignment and `import` cannot occur inside an
expression tree at all; they fail at parse time.)  This is the spec-side
observation used to state the structural-rejection claims; the evaluator
itself is embedded above, independently of it. -/
def hasDisallowed : Expr → Bool
  | Expr.lambdaE _ => true
  | Expr.attr _ _ => true
  | Expr.subscript _ _ => true
  | Expr.binOp _ l r => hasDisallowed l || hasDisallowed r
  | Expr.unaryOp _ e => hasDisallowed e
  | Expr.call fn args kws => hasDisallowed fn || argsHaveDis args || kwsHaveDis kws
  | _ => false

/-- `hasDisallowed` over positional arguments. -/
def argsHaveDis : ExprList → Bool
  | ExprList.nil => false
  | ExprList.cons e es => hasDisallowed e || argsHaveDis es

/-- `hasDisallowed` over keyword arguments. -/
def kwsHaveDis : KwList → Bool
  | KwList.nil => false
  | KwList.cons _ e ks => hasDisallowed e || kwsHaveDis ks
end

/-- The token kinds of the host tokenizer that the exercised inputs use. -/
inductive Tok where
  | tInt (n : ℤ)
  | tFloat (q : ℚ)
  | tIdent (s : String)
  | tStr (s : String)
  | tPlus | tMinus | tStar | tDStar | tSlash | tDSlash | tPercent
  | tLParen | tRParen | tLBrack | tRBrack
  | tComma | tEq | tDot | tColon
  deriving DecidableEq, Repr

/-- The double-quote character. -/
def dquote : Char := Char.ofNat 34

/-- Value of a decimal digit character. -/
def digitVal (c : Char) : ℕ := c.toNat - 48

/-- Split off the longest prefix satisfying a character predicate. -/
def takeWhileP (p : Char → Bool) : List Char → (List Char × List Char)
  | [] => ([], [])
  | c :: cs =>
    if p c then
      let (ds, rest) := takeWhileP p cs
      (c :: ds, rest)
    else ([], c :: cs)

/-- Is the character a digit or an underscore separator? -/
def isDigitU (c : Char) : Bool := c.isDigit || c = '_'

/-- Is the character a hexadecimal digit or an underscore separator? -/
def isHexU (c : Char) : Bool :=
  c.isDigit || (97 ≤ c.toNat && c.toNat ≤ 102) || (65 ≤ c.toNat && c.toNat ≤ 70) || c = '_'

/-- Value of a hexadecimal digit character. -/
def hexVal (c : Char) : ℕ :=
  if c.isDigit then digitVal c
  else if 97 ≤ c.toNat then c.toNat - 87
  else c.toNat - 55

/-- Read digit characters in a given radix, skipping underscore
separators, as the host numeric tokenizer does. -/
def radixToNat (r : ℕ) (ds : List Char) : ℕ :=
  ds.foldl (fun acc c => if c = '_' then acc else acc * r + hexVal c) 0

/-- Decimal digits (with separators) to a natural number. -/
def digitsToNat (ds : List Char) : ℕ := radixToNat 10 ds

/-- Number of actual digits among the characters (separators dropped). -/
def numDigits (ds : List Char) : ℕ := (ds.filter (fun c => c ≠ '_')).length

/-- First character of an identifier: letter or underscore. -/
def isIdentStart (c : Char) : Bool := c.isAlpha || c = '_'

/-- Later character of an identifier. -/
def isIdentChar (c : Char) : Bool := c.isAlphanum || c = '_'

/-- Build the exact rational value of a decimal literal
`ip . fp e (±) ed` (the host rounds this to the nearest double; every
literal in the inputs exercised here is exactly representable). -/
def mkFloatLit (ip fp : List Char) (eneg : Bool) (ed : ℕ) : ℚ :=
  let base : ℚ := (digitsToNat ip : ℚ) + (digitsToNat fp : ℚ) / (10 : ℚ) ^ numDigits fp
  let e : ℤ := if eneg then -(ed : ℤ) else (ed : ℤ)
  base * (10 : ℚ) ^ e

/-- Lex the exponent part after `e`/`E`: optional sign, then at least one
digit; returns the signedness, its digits and the rest. -/
def lexExponent (cs : List Char) : Option (Bool × List Char × List Char) :=
  match cs with
  | '+' :: rest =>
    let (ds, r) := takeWhileP isDigitU rest
    if numDigits ds = 0 then none else some (false, ds, r)
  | '-' :: rest =>
    let (ds, r) := takeWhileP isDigitU rest
    if numDigits ds = 0 then none else some (true, ds, r)
  | _ =>
    let (ds, r) := takeWhileP isDigitU cs
    if numDigits ds = 0 then none else some (false, ds, r)

/-- Lex a decimal numeric literal (integer, or float with optional
fractional part and optional exponent). -/
def lexDecimal (cs : List Char) : Option (Tok × List Char) :=
  let (ip, r1) := takeWhileP isDigitU cs
  match r1 with
  | '.' :: r2 =>
    let (fp, r3) := takeWhileP isDigitU r2
    if numDigits ip = 0 && numDigits fp = 0 then none
    else
      match r3 with
      | 'e' :: r4 =>
        match lexExponent r4 with
        | some (sgn, ds, r5) => some (Tok.tFloat (mkFloatLit ip fp sgn (digitsToNat ds)), r5)
        | none => none
      | 'E' :: r4 =>
        match lexExponent r4 with
        | some (sgn, ds, r5) => some (Tok.tFloat (mkFloatLit ip fp sgn (digitsToNat ds)), r5)
        | none => none
      | _ => some (Tok.tFloat (mkFloatLit ip fp false 0), r3)
  | 'e' :: r2 =>
    if numDigits ip = 0 then none
    else
      match lexExponent r2 with
      | some (sgn, ds, r3) => some (Tok.tFloat (mkFloatLit ip [] sgn (digitsToNat ds)), r3)
      | none => none
  | 'E' :: r2 =>
    if numDigits ip = 0 then none
    else
      match lexExponent r2 with
      | some (sgn, ds, r3) => some (Tok.tFloat (mkFloatLit ip [] sgn (digitsToNat ds)), r3)
      | none => none
  | _ =>
    if numDigits ip = 0 then none
    else some (Tok.tInt (digitsToNat ip : ℤ), r1)

/-- Lex a numeric literal, handling the `0x`/`0o`/`0b` radix prefixes of
the host grammar (each requires at least one digit). -/
def lexNumber (cs : List Char) : Option (Tok × List Char) :=
  match cs with
  | '0' :: x :: rest =>
    if x = 'x' || x = 'X' then
      let (ds, r) := takeWhileP isHexU rest
      if numDigits ds = 0 then none else some (Tok.tInt (radixToNat 16 ds : ℤ), r)
    else if x = 'o' || x = 'O' then
      let (ds, r) := takeWhileP (fun c => (48 ≤ c.toNat && c.toNat ≤ 55) || c = '_') rest
      if numDigits ds = 0 then none else some (Tok.tInt (radixToNat 8 ds : ℤ), r)
    else if x = 'b' || x = 'B' then
      let (ds, r) := takeWhileP (fun c => c = '0' || c = '1' || c = '_') rest
      if numDigits ds = 0 then none else some (Tok.tInt (radixToNat 2 ds : ℤ), r)
    else lexDecimal cs
  | _ => lexDecimal cs

/-- Lex the body of a double-quoted string literal up to the closing
quote (the exercised inputs contain no escape sequences). -/
def lexStrChars : List Char → Option (List Char × List Char)
  | [] => none
  | c :: cs =>
    if c = dquote then some ([], cs)
    else
      match lexStrChars cs with
      | some (s, r) => some (c :: s, r)
      | none => none

/-- Prepend a token to the result of tokenizing the rest. -/
def consTok (t : Tok) : Option (List Tok) → Option (List Tok)
  | some ts => some (t :: ts)
  | none => none

/-- The host tokenizer on the character fragment the exercised inputs use;
`none` models a tokenization error (reported by `ast.parse` as a
`SyntaxError`).  Fuel is at least the number of remaining characters. -/
def tokenize : ℕ → List Char → Option (List Tok)
  | 0, _ => none
  | _, [] => some []
  | Nat.succ f, c :: cs =>
    if c = ' ' || c = Char.ofNat 9 then tokenize f cs
    else if c.isDigit then
      match lexNumber (c :: cs) with
      | some (t, rest) => consTok t (tokenize f rest)
      | none => none
    else if c = '.' then
      match cs with
      | d :: _ =>
        if d.isDigit then
          match lexNumber (c :: cs) with
          | some (t, rest) => consTok t (tokenize f rest)
          | none => none
        else consTok Tok.tDot (tokenize f cs)
      | [] => consTok Tok.tDot (tokenize f cs)
    else if isIdentStart c then
      let (ics, rest) := takeWhileP isIdentChar (c :: cs)
      consTok (Tok.tIdent (String.mk ics)) (tokenize f rest)
    else if c = dquote then
      match lexStrChars cs with
      | some (s, rest) => consTok (Tok.tStr (String.mk s)) (tokenize f rest)
      | none => none
    else if c = '*' then
      match cs with
      | '*' :: r => consTok Tok.tDStar (tokenize f r)
      | _ => consTok Tok.tStar (tokenize f cs)
    else if c = '/' then
      match cs with
      | '/' :: r => consTok Tok.tDSlash (tokenize f r)
      | _ => consTok Tok.tSlash (tokenize f cs)
    else if c = '+' then consTok Tok.tPlus (tokenize f cs)
    else if c = '-' then consTok Tok.tMinus (tokenize f cs)
    else if c = '%' then consTok Tok.tPercent (tokenize f cs)
    else if c = '(' then consTok Tok.tLParen (tokenize f cs)
    else if c = ')' then consTok Tok.tRParen (tokenize f cs)
    else if c = '[' then consTok Tok.tLBrack (tokenize f cs)
    else if c = ']' then consTok Tok.tRBrack (tokenize f cs)
    else if c = ',' then consTok Tok.tComma (tokenize f cs)
    else if c = '=' then consTok Tok.tEq (tokenize f cs)
    else if c = ':' then consTok Tok.tColon (tokenize f cs)
    else none

mutual
/-- Additive level of the host expression grammar (`+` `-`,
left-associative, lowest precedence among the operators in play). -/
def pAdd : ℕ → List Tok → Option (Expr × List Tok)
  | 0, _ => none
  | Nat.succ f, ts =>
    match pMul f ts with
    | some (l, ts1) => pAddLoop f l ts1
    | none => none

/-- Left-associative chaining for the additive level. -/
def pAddLoop : ℕ → Expr → List Tok → Option (Expr × List Tok)
  | 0, _, _ => none
  | Nat.succ f, acc, ts =>
    match ts with
    | Tok.tPlus :: ts1 =>
      match pMul f ts1 with
      | some (r, ts2) => pAddLoop f (Expr.binOp BOp.add acc r) ts2
      | none => none
    | Tok.tMinus :: ts1 =>
      match pMul f ts1 with
      | some (r, ts2) => pAddLoop f (Expr.binOp BOp.sub acc r) ts2
      | none => none
    | _ => some (acc, ts)

/-- Multiplicative level (`*` `/` `//` `%`, left-associative). -/
def pMul : ℕ → List Tok → Option (Expr × List Tok)
  | 0, _ => none
  | Nat.succ f, ts =>
    match pUnary f ts with
    | some (l, ts1) => pMulLoop f l ts1
    | none => none

/-- Left-associative chaining for the multiplicative level. -/
def pMulLoop : ℕ → Expr → List Tok → Option (Expr × List Tok)
  | 0, _, _ => none
  | Nat.succ f, acc, ts =>
    match ts with
    | Tok.tStar :: ts1 =>
      match pUnary f ts1 with
      | some (r, ts2) => pMulLoop f (Expr.binOp BOp.mult acc r) ts2
      | none => none
    | Tok.tSlash :: ts1 =>
      match pUnary f ts1 with
      | some (r, ts2) => pMulLoop f (Expr.binOp BOp.div acc r) ts2
      | none => none
    | Tok.tDSlash :: ts1 =>
      match pUnary f ts1 with
      | some (r, ts2) => pMulLoop f (Expr.binOp BOp.floorDiv acc r) ts2
      | none => none
    | Tok.tPercent :: ts1 =>
      match pUnary f ts1 with
      | some (r, ts2) => pMulLoop f (Expr.binOp BOp.mod acc r) ts2
      | none => none
    | _ => some (acc, ts)

/-- Unary level (`+x` `-x`); as in the host grammar, unary minus binds
looser than `**` (so `-2**2` is `-(2**2)`), while an exponent may itself
be a unary expression. -/
def pUnary : ℕ → List Tok → Option (Expr × List Tok)
  | 0, _ => none
  | Nat.succ f, ts =>
    match ts with
    | Tok.tPlus :: ts1 =>
      match pUnary f ts1 with
      | some (e, ts2) => some (Expr.unaryOp UOp.uAdd e, ts2)
      | none => none
    | Tok.tMinus :: ts1 =>
      match pUnary f ts1 with
      | some (e, ts2) => some (Expr.unaryOp UOp.uSub e, ts2)
      | none => none
    | _ => pPow f ts

/-- Power level (`**`, right-associative, exponent parsed at the unary
level). -/
def pPow : ℕ → List Tok → Option (Expr × List Tok)
  | 0, _ => none
  | Nat.succ f, ts =>
    match pTrail f ts with
    | some (b, ts1) =>
      match ts1 with
      | Tok.tDStar :: ts2 =>
        match pUnary f ts2 with
        | some (e, ts3) => some (Expr.binOp BOp.pow b e, ts3)
        | none => none
      | _ => some (b, ts1)
    | none => none

/-- Primary followed by trailers: calls `f(...)`, subscripts `a[i]`, and
attribute access `x.y`. -/
def pTrail : ℕ → List Tok → Option (Expr × List Tok)
  | 0, _ => none
  | Nat.succ f, ts =>
    match pAtom f ts with
    | some (a, ts1) => pTrailLoop f a ts1
    | none => none

/-- Iterate trailers after a primary. -/
def pTrailLoop : ℕ → Expr → List Tok → Option (Expr × List Tok)
  | 0, _, _ => none
  | Nat.succ f, a, ts =>
    match ts with
    | Tok.tLParen :: ts1 =>
      match pArgs f ts1 with
      | some (args, kws, ts2) => pTrailLoop f (Expr.call a args kws) ts2
      | none => none
    | Tok.tLBrack :: ts1 =>
      match pAdd f ts1 with
      | some (i, Tok.tRBrack :: ts2) => pTrailLoop f (Expr.subscript a i) ts2
      | _ => none
    | Tok.tDot :: Tok.tIdent s :: ts1 => pTrailLoop f (Expr.attr a s) ts1
    | _ => some (a, ts)

/-- Argument list of a call, after the opening parenthesis: zero or more
comma-separated positional arguments and `name=expr` keyword arguments,
through the closing parenthesis. -/
def pArgs : ℕ → List Tok → Option (ExprList × KwList × List Tok)
  | 0, _ => none
  | Nat.succ f, ts =>
    match ts with
    | Tok.tRParen :: ts1 => some (ExprList.nil, KwList.nil, ts1)
    | _ => pArgsLoop f ts

/-- One argument item, then either `,` and more items or `)`. -/
def pArgsLoop : ℕ → List Tok → Option (ExprList × KwList × List Tok)
  | 0, _ => none
  | Nat.succ f, ts =>
    match ts with
    | Tok.tIdent s :: Tok.tEq :: ts1 =>
      match pAdd f ts1 with
      | some (v, Tok.tComma :: ts2) =>
        match pArgsLoop f ts2 with
        | some (args, kws, ts3) => some (args, KwList.cons s v kws, ts3)
        | none => none
      | some (v, Tok.tRParen :: ts2) => some (ExprList.nil, KwList.cons s v KwList.nil, ts2)
      | _ => none
    | _ =>
      match pAdd f ts with
      | some (e, Tok.tComma :: ts1) =>
        match pArgsLoop f ts1 with
        | some (args, kws, ts2) => some (ExprList.cons e args, kws, ts2)
        | none => none
      | some (e, Tok.tRParen :: ts1) => some (ExprList.cons e ExprList.nil, KwList.nil, ts1)
      | _ => none

/-- Primary expressions: literals, `True`/`False`/`None`, lambdas,
identifiers and parenthesized expressions. -/
def pAtom : ℕ → List Tok → Option (Expr × List Tok)
  | 0, _ => none
  | Nat.succ f, ts =>
    match ts with
    | Tok.tInt n :: ts1 => some (Expr.constInt n, ts1)
    | Tok.tFloat q :: ts1 => some (Expr.constFloat q, ts1)
    | Tok.tStr s :: ts1 => some (Expr.constStr s, ts1)
    | Tok.tIdent s :: ts1 =>
      if s = "True" then some (Expr.constBool true, ts1)
      else if s = "False" then some (Expr.constBool false, ts1)
      else if s = "None" then some (Expr.constNone, ts1)
      else if s = "lambda" then pLambda f ts1
      else some (Expr.name s, ts1)
    | Tok.tLParen :: ts1 =>
      match pAdd f ts1 with
      | some (e, Tok.tRParen :: ts2) => some (e, ts2)
      | _ => none
    | _ => none

/-- A lambda after the `lambda` keyword: skip the (possibly empty)
parameter list up to the colon, then parse the body expression. -/
def pLambda : ℕ → List Tok → Option (Expr × List Tok)
  | 0, _ => none
  | Nat.succ f, ts =>
    match ts with
    | Tok.tColon :: ts1 =>
      match pAdd f ts1 with
      | some (b, ts2) => some (Expr.lambdaE b, ts2)
      | none => none
    | Tok.tIdent _ :: ts1 => pLambda f ts1
    | Tok.tComma :: ts1 => pLambda f ts1
    | _ => none
end

/-- `ast.parse(expr, mode="eval")` on the grammar fragment the exercised
inputs use: tokenize, parse a single expression, and require that every
token is consumed (a leftover token, for example the `=` of an assignment
statement, is a `SyntaxError` in `eval` mode). -/
def pyParseEval (s : String) : Option Expr :=
  match tokenize (s.length + 1) s.toList with
  | some ts =>
    match pAdd ((ts.length + 1) * 8) ts with
    | some (e, []) => some e
    | _ => none
  | none => none

/-- `safe_eval`: parse (a failure raises `Syntax error`), run the
`ast.walk` rejection pass (of whose rejected node classes only `Lambda`
can occur in `eval` mode), then evaluate with `_eval_node`. -/
def safe_eval (s : String) : Except EvalError Value :=
  match pyParseEval s with
  | none => Except.error EvalError.syntaxError
  | some t =>
    if exprHasLambda t then Except.error EvalError.disallowedConstruct
    else evalNode t

/-- The idealized real reading of an evaluator value: exact values denote
themselves, a symbolically recorded host computation denotes the exact
real number its double result approximates, and a complex value has no
real denotation. -/
noncomputable def Value.denote : Value → Option ℝ
  | Value.vInt n => some (n : ℝ)
  | Value.vBool b => some (if b then 1 else 0)
  | Value.vFloat q => some (q : ℝ)
  | Value.vComplex => none
  | Value.vTrans f as =>
    match f, as with
    | "log", [x] => some (Real.log (x : ℝ))
    | "log", [x, b] => some (Real.log (x : ℝ) / Real.log (b : ℝ))
    | "log10", [x] => some (Real.log (x : ℝ) / Real.log 10)
    | "sqrt", [x] => some (Real.sqrt (x : ℝ))
    | "exp", [x] => some (Real.exp (x : ℝ))
    | "sin", [x] => some (Real.sin (x : ℝ))
    | "cos", [x] => some (Real.cos (x : ℝ))
    | _, _ => none

/-- Modelled from the spec: a rational number is representable as an
IEEE-754 double-precision value only if it is `m * 2 ^ e` for integers
`m`, `e` with `|m| < 2 ^ 53` (the 53-bit significand; the exponent range
does not matter for the numbers considered here).  Any computation that
follows IEEE-754 double-precision semantics can only return representable
numbers. -/
def IsDoubleRepr (x : ℚ) : Prop :=
  ∃ m e : ℤ, |m| < 2 ^ 53 ∧ x = (m : ℚ) * (2 : ℚ) ^ e

/-- `2 ^ 53 + 1` is not representable as an IEEE-754 double. -/
theorem not_double_repr_pow53_succ : ¬ IsDoubleRepr ((9007199254740993 : ℚ)) := by
  rintro ⟨m, e, hm, hx⟩
  rcases e with k | k
  · rw [Int.ofNat_eq_coe, zpow_natCast] at hx
    have hxz : (9007199254740993 : ℤ) = m * 2 ^ k := by exact_mod_cast hx
    cases k with
    | zero =>
      rw [pow_zero, mul_one] at hxz
      rw [← hxz] at hm
      norm_num at hm
    | succ j =>
      have h2 : (2 : ℤ) ∣ 9007199254740993 := ⟨m * 2 ^ j, by rw [hxz]; ring⟩
      norm_num at h2
  · rw [zpow_negSucc] at hx
    have hpow : ((2 : ℚ) ^ (k + 1)) ≠ 0 := by positivity
    have hmq : (m : ℚ) = 9007199254740993 * (2 : ℚ) ^ (k + 1) := by
      field_simp at hx
      linarith [hx]
    have hmz : m = 9007199254740993 * 2 ^ (k + 1) := by exact_mod_cast hmq
    have h1 : (2 : ℤ) ≤ 2 ^ (k + 1) := by
      calc (2 : ℤ) = 2 ^ 1 := by norm_num
      _ ≤ 2 ^ (k + 1) := by
        apply pow_le_pow_right₀ (by norm_num)
        omega
    have habs := (abs_lt.mp hm).2
    nlinarith [hmz, h1, habs]

/-- Claim C1 (failing input): the rejection of disallowed constructs is
not structural.  The input `log(100, base=a[0])` contains a subscript
nested in the expression, yet `safe_eval` returns the numeric value
`log(100)`: keyword arguments are discarded by `_eval_node` without being
evaluated or validated, and the `ast.walk` pass does not reject
`Subscript` (or `Attribute`) nodes.  The remaining conjuncts show that the
claim does hold for the directly exercised disallowed constructs:
assignment and `import` fail to parse in `eval` mode, a lambda is caught
by the walk pass, and attribute access or a subscript in evaluated
position hits the `Unsupported expression` catch-all. -/
theorem c1_keyword_argument_hides_subscript :
    Option.map hasDisallowed (pyParseEval ("log(100, base=a[0])")) = some true ∧
    safe_eval ("log(100, base=a[0])") = Except.ok (Value.vTrans ("log") [100]) ∧
    safe_eval ("x=1") = Except.error EvalError.syntaxError ∧
    safe_eval ("import os") = Except.error EvalError.syntaxError ∧
    safe_eval ("lambda x: x") = Except.error EvalError.disallowedConstruct ∧
    safe_eval ("os.system") = Except.error EvalError.unsupportedExpr ∧
    safe_eval ("a[0]") = Except.error EvalError.unsupportedExpr :=
  ⟨rfl, rfl, rfl, rfl, rfl, rfl, rfl⟩

/-- Claim C2: evaluating `/`, `//` or `%` with a zero right operand
produces the `Error in operation` error (spec kind `OperationError`) for
every left operand, and `safe_eval "1/0"` returns exactly that error —
the `ZeroDivisionError` of the host is caught by the `try`/`except` around
the operator application and never escapes. -/
theorem c2_division_by_zero_yields_operation_error :
    (∀ a b : Value, b.isZero = true →
      applyBin BOp.div a b = Except.error EvalError.opError ∧
      applyBin BOp.floorDiv a b = Except.error EvalError.opError ∧
      applyBin BOp.mod a b = Except.error EvalError.opError) ∧
    safe_eval ("1/0") = Except.error EvalError.opError ∧
    kindOf EvalError.opError = ErrKind.operationErrorKind := by
  refine ⟨?_, rfl, rfl⟩
  intro a b h
  refine ⟨?_, ?_, ?_⟩ <;> simp [applyBin, binFunc, pyDiv, pyFloorDiv, pyMod, h]

/-- Witness for claim C2 at the concrete operands `1` and `0`. -/
theorem c2_division_by_zero_witness :
    Value.isZero (Value.vInt 0) = true ∧
    applyBin BOp.div (Value.vInt 1) (Value.vInt 0) = Except.error EvalError.opError ∧
    applyBin BOp.floorDiv (Value.vInt 1) (Value.vInt 0) = Except.error EvalError.opError ∧
    applyBin BOp.mod (Value.vInt 1) (Value.vInt 0) = Except.error EvalError.opError :=
  ⟨rfl,
   (c2_division_by_zero_yields_operation_error.1 (Value.vInt 1) (Value.vInt 0) rfl).1,
   (c2_division_by_zero_yields_operation_error.1 (Value.vInt 1) (Value.vInt 0) rfl).2.1,
   (c2_division_by_zero_yields_operation_error.1 (Value.vInt 1) (Value.vInt 0) rfl).2.2⟩

/-- Claim C3 (counterexample): the evaluator does not follow IEEE-754
double-precision semantics.  On `2**53 + 1` (numeric literals and
whitelisted operators only) it returns the exact integer
`9007199254740993 = 2^53 + 1`, which is not representable as a double at
all, so no IEEE-754 double-precision evaluation could return it (the
IEEE-754 result of this expression is `2^53`). -/
theorem c3_exact_integer_exceeds_double_precision :
    safe_eval ("2**53 + 1") = Except.ok (Value.vInt 9007199254740993) ∧
    ¬ IsDoubleRepr ((9007199254740993 : ℚ)) :=
  ⟨rfl, not_double_repr_pow53_succ⟩

/-- Claim C3 (amended): arithmetic over integer literals with the
whitelisted operators is exact arbitrary-precision integer arithmetic,
with the claimed example results: `2 + 3*4` is `14`, `2**10` is `1024`,
`7 // 2` is `3`, and `7 % 2` is `1`. -/
theorem c3_integer_arithmetic_examples :
    safe_eval ("2 + 3*4") = Except.ok (Value.vInt 14) ∧
    safe_eval ("2**10") = Except.ok (Value.vInt 1024) ∧
    safe_eval ("7 // 2") = Except.ok (Value.vInt 3) ∧
    safe_eval ("7 % 2") = Except.ok (Value.vInt 1) :=
  ⟨rfl, rfl, rfl, rfl⟩

/-- Claim C4 (counterexample): the whole-expression boolean literal
`True` is not rejected: `ast.Constant` holding `True` passes the
`isinstance(node.value, (int, float))` test because `bool` is a subtype of
`int` in the host, so `safe_eval` returns the value `True` instead of an
error. -/
theorem c4_boolean_literal_evaluates :
    safe_eval ("True") = Except.ok (Value.vBool true) :=
  rfl

/-- Claim C4 (amended): a string literal is rejected with the
`Only numeric constants are allowed` error (spec kind
`DisallowedConstruct`), but a boolean literal evaluates to itself, because
the host treats `bool` as a numeric subtype of `int`. -/
theorem c4_string_rejected_boolean_accepted :
    safe_eval ("\"abc\"") = Except.error EvalError.onlyNumericConst ∧
    kindOf EvalError.onlyNumericConst = ErrKind.disallowedKind ∧
    safe_eval ("False") = Except.ok (Value.vBool false) :=
  ⟨rfl, rfl, rfl⟩

/-- Claim C5 (counterexample): `(-8) ** 0.5` does not produce an
`OperationError`: the host `**` operator on a negative base with a
fractional exponent returns a *complex* number (Python 3 semantics), no
exception is raised, and `safe_eval` returns that complex value. -/
theorem c5_negative_base_fractional_power_is_complex :
    safe_eval ("(-8) ** 0.5") = Except.ok Value.vComplex :=
  by with_unfolding_all rfl

/-- Claim C5 (amended): `(-8) ** 0.5` evaluates to a complex value (so no
low-level numeric exception escapes, but no error is reported either),
whereas the whitelisted `pow` *function* on the same arguments does raise
(`math.pow` signals `ValueError`), which `_eval_node` converts to the
`Error calling pow` error of spec kind `OperationError`. -/
theorem c5_complex_result_and_pow_function_contrast :
    safe_eval ("(-8) ** 0.5") = Except.ok Value.vComplex ∧
    safe_eval ("pow(-8, 0.5)") = Except.error (EvalError.callError ("pow")) ∧
    kindOf (EvalError.callError ("pow")) = ErrKind.operationErrorKind := by
  refine ⟨?_, ?_, rfl⟩ <;> with_unfolding_all rfl

/-- Claim C6 (counterexample): the hexadecimal literal `0x10` is not
rejected: the host parser accepts it and `safe_eval` returns its value
`16`. -/
theorem c6_hex_literal_accepted :
    safe_eval ("0x10") = Except.ok (Value.vInt 16) :=
  rfl

/-- Claim C6 (amended): the host grammar also accepts octal and binary
literal forms and underscore digit separators, each evaluating to its
numeric value; plain decimal integer and float literals evaluate to their
exact values. -/
theorem c6_host_literal_forms :
    safe_eval ("1_000") = Except.ok (Value.vInt 1000) ∧
    safe_eval ("0o10") = Except.ok (Value.vInt 8) ∧
    safe_eval ("0b101") = Except.ok (Value.vInt 5) ∧
    safe_eval ("42") = Except.ok (Value.vInt 42) ∧
    safe_eval ("2.5e1") = Except.ok (Value.vFloat 25) := by
  refine ⟨rfl, rfl, rfl, rfl, ?_⟩
  with_unfolding_all rfl

/-- Claim C7: `log` accepts both one and two arguments.  `log(8)`
evaluates to the host `math.log(8)`, whose denotation is the natural
logarithm of `8` (which is within `10⁻⁴` of `2.0794`), and
`log(100, 10)` evaluates to the two-argument host logarithm, whose
denotation `log 100 / log 10` equals exactly `2`. -/
theorem c7_log_accepts_one_and_two_arguments :
    safe_eval ("log(8)") = Except.ok (Value.vTrans ("log") [8]) ∧
    Value.denote (Value.vTrans ("log") [8]) = some (Real.log 8) ∧
    |Real.log 8 - 2.0794| < 1 / 10000 ∧
    safe_eval ("log(100, 10)") = Except.ok (Value.vTrans ("log") [100, 10]) ∧
    Value.denote (Value.vTrans ("log") [100, 10]) = some 2 := by
  refine ⟨rfl, ?_, ?_, rfl, ?_⟩
  · have h0 : Value.denote (Value.vTrans ("log") [(8 : ℚ)]) =
        some (Real.log ((8 : ℚ) : ℝ)) := rfl
    rw [h0]
    norm_num
  · have h8 : (8 : ℝ) = 2 ^ (3 : ℕ) := by norm_num
    rw [h8, Real.log_pow]
    have hlt := Real.log_two_lt_d9
    have hgt := Real.log_two_gt_d9
    rw [abs_lt]
    constructor <;> nlinarith
  · have h0 : Value.denote (Value.vTrans ("log") [(100 : ℚ), (10 : ℚ)]) =
        some (Real.log ((100 : ℚ) : ℝ) / Real.log ((10 : ℚ) : ℝ)) := rfl
    rw [h0]
    have hc : ((100 : ℚ) : ℝ) = 100 ∧ ((10 : ℚ) : ℝ) = 10 := by norm_num
    rw [hc.1, hc.2]
    have h100 : (100 : ℝ) = 10 ^ (2 : ℕ) := by norm_num
    have hne : Real.log 10 ≠ 0 := by
      have := Real.log_pos (by norm_num : (1 : ℝ) < 10)
      linarith
    rw [h100, Real.log_pow]
    field_simp

/-- Claim C8: `factorial(5)` returns the exact integer `120` (an `int`
value, distinguished by its type from a float), and `factorial(-1)`
raises `ValueError` in the host, which `_eval_node` converts to the
`Error calling factorial` error of spec kind `OperationError` (the claim
admits `BadArguments` or `OperationError`). -/
theorem c8_factorial_exact_and_negative_rejected :
    safe_eval ("factorial(5)") = Except.ok (Value.vInt 120) ∧
    safe_eval ("factorial(-1)") = Except.error (EvalError.callError ("factorial")) ∧
    kindOf (EvalError.callError ("factorial")) = ErrKind.operationErrorKind :=
  ⟨rfl, rfl, rfl⟩

/-- Claim C9: every name outside the two-entry constant table evaluates
to `Unknown identifier` carrying the name (spec kind `UnknownIdentifier`),
and every call whose bare function name is outside the function table
evaluates to `Function not allowed` carrying the name (spec kind
`UnknownFunction`), with the claimed concrete examples. -/
theorem c9_unknown_identifier_and_function :
    (∀ nm : String, constantsTable nm = none →
      evalNode (Expr.name nm) = Except.error (EvalError.unknownIdentifier nm)) ∧
    (∀ (f : String) (args : ExprList) (kws : KwList), mathFuncs f = none →
      evalNode (Expr.call (Expr.name f) args kws) =
        Except.error (EvalError.functionNotAllowed f)) ∧
    safe_eval ("xyz") = Except.error (EvalError.unknownIdentifier ("xyz")) ∧
    safe_eval ("unknown_fn(1)") = Except.error (EvalError.functionNotAllowed ("unknown_fn")) ∧
    kindOf (EvalError.unknownIdentifier ("xyz")) = ErrKind.unknownIdentifierKind ∧
    kindOf (EvalError.functionNotAllowed ("unknown_fn")) = ErrKind.unknownFunctionKind := by
  refine ⟨?_, ?_, rfl, rfl, rfl, rfl⟩
  · intro nm h
    simp [evalNode, h]
  · intro f args kws h
    simp [evalNode, h]

/-- Witness for claim C9 at the concrete names `xyz` and `unknown_fn`. -/
theorem c9_unknown_names_witness :
    constantsTable ("xyz") = none ∧
    evalNode (Expr.name ("xyz")) = Except.error (EvalError.unknownIdentifier ("xyz")) ∧
    mathFuncs ("unknown_fn") = none ∧
    evalNode (Expr.call (Expr.name ("unknown_fn"))
        (ExprList.cons (Expr.constInt 1) ExprList.nil) KwList.nil) =
      Except.error (EvalError.functionNotAllowed ("unknown_fn")) :=
  ⟨rfl,
   c9_unknown_identifier_and_function.1 ("xyz") rfl,
   rfl,
   c9_unknown_identifier_and_function.2.1 ("unknown_fn")
     (ExprList.cons (Expr.constInt 1) ExprList.nil) KwList.nil rfl⟩

/-- Claim C10: `_eval_node` discards keyword arguments without evaluating
or validating them — the result of any call node is independent of its
keyword-argument list — so `log(100, base=10)` invokes `log` with the
positional argument only: it equals `log(100)`, the host natural
logarithm of `100` (whose denotation `log 100` is not `2`), rather than
`2.0` or an error; even a keyword argument that would itself fail to
evaluate (`base=unknown_fn(1)`) is ignored. -/
theorem c10_keyword_arguments_discarded :
    (∀ (f : String) (args : ExprList) (kws : KwList),
      evalNode (Expr.call (Expr.name f) args kws) =
        evalNode (Expr.call (Expr.name f) args KwList.nil)) ∧
    safe_eval ("log(100, base=10)") = safe_eval ("log(100)") ∧
    safe_eval ("log(100, base=10)") = Except.ok (Value.vTrans ("log") [100]) ∧
    safe_eval ("log(100, base=unknown_fn(1))") = Except.ok (Value.vTrans ("log") [100]) ∧
    Value.denote (Value.vTrans ("log") [100]) = some (Real.log 100) ∧
    Real.log 100 ≠ 2 := by
  refine ⟨?_, rfl, rfl, rfl, ?_, ?_⟩
  · intro f args kws
    rfl
  · have h0 : Value.denote (Value.vTrans ("log") [(100 : ℚ)]) =
        some (Real.log ((100 : ℚ) : ℝ)) := rfl
    rw [h0]
    norm_num
  · have hexp : Real.exp 2 < 100 := by
      have h1 := Real.exp_one_lt_d9
      have h2 : Real.exp 2 = Real.exp 1 * Real.exp 1 := by
        rw [← Real.exp_add]
        norm_num
      nlinarith [Real.exp_pos 1]
    have : (2 : ℝ) < Real.log 100 :=
      (Real.lt_log_iff_exp_lt (by norm_num)).mpr hexp
    linarith [this]
